import Mathlib

/-!
Shallow embedding of the vocab_app_backend services (Node/Express/Prisma)
and proofs about them.

The embedding models the Prisma-backed store as an explicit in-memory state
(`DB`), the services (`AuthService`, `DeckService`, `CardService`) as pure
state-passing functions returning `Except String _` (a thrown `Error(msg)`
becomes `Except.error msg`), and the retry wrapper `withRetry` from
`src/config/database.js` as a pure recursion over a stream of per-attempt
outcomes.
-/

namespace VocabApp

/-- JavaScript `String.prototype.trim()`: strip leading and trailing
whitespace, modelled over the character list. -/
def jsTrim (s : String) : String :=
  ⟨((s.data.dropWhile Char.isWhitespace).reverse.dropWhile Char.isWhitespace).reverse⟩

/-- JavaScript `String.prototype.toLowerCase()`, modelled characterwise. -/
def jsToLower (s : String) : String :=
  ⟨s.data.map Char.toLower⟩

/-- JavaScript `String.prototype.includes(pat)`: substring containment. -/
def strIncludes (s pat : String) : Bool :=
  decide (pat.data <:+: s.data)

/-! ## Data model (prisma schema: User, Deck, Card) -/

/-- A row of the `User` table. -/
structure UserRow where
  id : Nat
  email : String
  password : String
  name : Option String
  createdAt : Int
  updatedAt : Int
deriving DecidableEq, Repr

/-- A row of the `Deck` table.  `cardCount` is the denormalized cached
count maintained by `CardService.updateDeckCardCount`. -/
structure Deck where
  id : Nat
  name : String
  description : Option String
  userId : Nat
  cardCount : Nat
  createdAt : Int
  updatedAt : Int
deriving DecidableEq, Repr

/-- A row of the `Card` table. -/
structure Card where
  id : Nat
  frontText : String
  backText : String
  memorized : Bool
  deckId : Nat
  createdAt : Int
  updatedAt : Int
deriving DecidableEq, Repr

/-- The database state seen through the Prisma client. -/
structure DB where
  users : List UserRow
  decks : List Deck
  cards : List Card
deriving DecidableEq, Repr

/-- `prisma.deck.findFirst({where: {id: deckId, userId}})` — the
ownership-scoped deck lookup used by every deck/card operation. -/
def deckFindFirst (db : DB) (deckId userId : Nat) : Option Deck :=
  db.decks.find? (fun d => d.id == deckId && d.userId == userId)

/-- `prisma.card.findFirst({where: {id: cardId, deck: {userId}}})` — card
lookup scoped through the owning chain Card→Deck→User. -/
def cardFindFirstOwned (db : DB) (cardId userId : Nat) : Option Card :=
  db.cards.find? (fun c =>
    c.id == cardId && db.decks.any (fun d => d.id == c.deckId && d.userId == userId))

/-- `prisma.card.count({where: {deckId}})`: the live number of cards of a
deck. -/
def countCards (db : DB) (deckId : Nat) : Nat :=
  (db.cards.filter (fun c => c.deckId == deckId)).length

/-! ## Persistence Gateway: `withRetry` (src/config/database.js)

An execution of `operation` is modelled by its outcome: `Except.ok v` for a
normal return, `Except.error e` for a thrown error `e`.  Since the JS loop
re-runs the same `operation`, the `k`-th execution's outcome is given by a
stream `outcome : Nat → Except JsError α` (1-based, like the `attempt`
counter in the source).  The model returns the propagated result (`none` if
the loop body never ran, i.e. `maxRetries = 0`), the number of executions
of `operation` performed, and the list of backoff delays awaited between
consecutive executions. -/

/-- A thrown JavaScript error as inspected by `withRetry`: an optional
Prisma error `code` and a `message`. -/
structure JsError where
  code : Option String
  message : String
deriving DecidableEq, Repr

/-- The transient-connection-error test in `withRetry`
(`error.code === 'P1001' || error.message.includes(...)`). -/
def isConnectionError (e : JsError) : Bool :=
  e.code == some "P1001" ||
  strIncludes e.message "Can't reach database" ||
  strIncludes e.message "Connection terminated" ||
  strIncludes e.message "Connection closed"

/-- Delay before the retry following failed attempt `attempt` in
`src/config/database.js`: `setTimeout(resolve, 1000)` — a fixed 1000 ms. -/
def dbRetryDelay (_attempt : Nat) : Nat := 1000

/-- Delay before the retry following failed attempt `attempt` in the
`part_003` revision of `config/database.js`:
`Math.min(1000 * Math.pow(2, attempt - 1), 5000)`. -/
def p3RetryDelay (attempt : Nat) : Nat :=
  min (1000 * 2 ^ (attempt - 1)) 5000

/-- The `for (let attempt = 1; attempt <= maxRetries; attempt++)` loop of
`withRetry`, parameterized by the delay schedule (`delayOf attempt` is the
pause taken after a failed `attempt`).  `fuel` bounds the recursion; the
wrapper below passes `maxRetries`, which is enough fuel since `attempt`
starts at 1. -/
def withRetryGo {α : Type} (delayOf : Nat → Nat) (outcome : Nat → Except JsError α)
    (maxRetries : Nat) : Nat → Nat → Option (Except JsError α) × Nat × List Nat
  | _, 0 => (none, 0, [])
  | attempt, fuel + 1 =>
    if attempt ≤ maxRetries then
      match outcome attempt with
      | Except.ok v => (some (Except.ok v), 1, [])
      | Except.error e =>
        if isConnectionError e && decide (attempt < maxRetries) then
          let rest := withRetryGo delayOf outcome maxRetries (attempt + 1) fuel
          (rest.1, rest.2.1 + 1, delayOf attempt :: rest.2.2)
        else
          (some (Except.error e), 1, [])
    else
      (none, 0, [])

/-- `withRetry(operation, maxRetries)` from `src/config/database.js`
(fixed 1000 ms pause between retries). -/
def withRetry {α : Type} (outcome : Nat → Except JsError α) (maxRetries : Nat) :
    Option (Except JsError α) × Nat × List Nat :=
  withRetryGo dbRetryDelay outcome maxRetries 1 maxRetries

/-- `withRetry(operation, maxRetries)` from the `part_003` revision of
`config/database.js` (exponential backoff, capped at 5000 ms). -/
def withRetryPart003 {α : Type} (outcome : Nat → Except JsError α) (maxRetries : Nat) :
    Option (Except JsError α) × Nat × List Nat :=
  withRetryGo p3RetryDelay outcome maxRetries 1 maxRetries

/-! ## CardService (src/services/cardService.js) -/

/-- `CardService.updateDeckCardCount(deckId)`: recompute the full live card
count of the deck and store it in `Deck.cardCount`. -/
def updateDeckCardCount (db : DB) (deckId : Nat) : DB :=
  { db with decks := db.decks.map (fun d =>
      if d.id == deckId then { d with cardCount := countCards db deckId } else d) }

/-- `CardService.createCard(userId, deckId, cardData)`.  `newId` is the id
the store assigns to the inserted row and `now` the insertion timestamp. -/
def createCard (db : DB) (userId deckId : Nat) (frontText backText : String)
    (memorized : Bool) (newId : Nat) (now : Int) : Except String (DB × Card) :=
  match deckFindFirst db deckId userId with
  | none => Except.error "Deck not found"
  | some _ =>
    let card : Card :=
      { id := newId, frontText := jsTrim frontText, backText := jsTrim backText,
        memorized := memorized, deckId := deckId, createdAt := now, updatedAt := now }
    let db1 : DB := { db with cards := db.cards ++ [card] }
    Except.ok (updateDeckCardCount db1 deckId, card)

/-- `CardService.deleteCard(cardId, userId)`. -/
def deleteCard (db : DB) (cardId userId : Nat) : Except String DB :=
  match cardFindFirstOwned db cardId userId with
  | none => Except.error "Card not found"
  | some existingCard =>
    let db1 : DB := { db with cards := db.cards.filter (fun c => c.id != cardId) }
    Except.ok (updateDeckCardCount db1 existingCard.deckId)

/-- `prisma.card.update({where: {id: cardId}, data: {memorized: b}})`. -/
def cardUpdateMemorized (db : DB) (cardId : Nat) (b : Bool) : DB :=
  { db with cards := db.cards.map (fun c =>
      if c.id == cardId then { c with memorized := b } else c) }

/-- `CardService.toggleMemorized(cardId, userId)`: read the card, then
write back the negated `memorized` flag; returns the updated card. -/
def toggleMemorized (db : DB) (cardId userId : Nat) : Except String (DB × Card) :=
  match cardFindFirstOwned db cardId userId with
  | none => Except.error "Card not found"
  | some existingCard =>
    Except.ok (cardUpdateMemorized db cardId (!existingCard.memorized),
      { existingCard with memorized := !existingCard.memorized })

/-- The row filter of `prisma.card.updateMany` in
`CardService.bulkUpdateMemorized`: `{id: {in: cardIds}, deckId}`. -/
def bulkTarget (cardIds : List Nat) (deckId : Nat) (c : Card) : Bool :=
  cardIds.contains c.id && c.deckId == deckId

/-- `CardService.bulkUpdateMemorized(userId, deckId, cardIds, memorized)`:
returns the new state together with `{updatedCount, memorized}`. -/
def bulkUpdateMemorized (db : DB) (userId deckId : Nat) (cardIds : List Nat)
    (memorized : Bool) : Except String (DB × Nat × Bool) :=
  match deckFindFirst db deckId userId with
  | none => Except.error "Deck not found"
  | some _ =>
    let db1 : DB := { db with cards := db.cards.map (fun c =>
        if bulkTarget cardIds deckId c then { c with memorized := memorized } else c) }
    Except.ok (db1, (db.cards.filter (bulkTarget cardIds deckId)).length, memorized)

/-- The study ordering of `CardService.getStudyCards`:
`orderBy: [{memorized: 'asc'}, {updatedAt: 'asc'}]` — unmemorized
(`false < true`) first, then least recently updated first. -/
def studyLE (c d : Card) : Bool :=
  (!c.memorized && d.memorized) ||
  (c.memorized == d.memorized && decide (c.updatedAt ≤ d.updatedAt))

/-- `CardService.getStudyCards(userId, deckId, options)`: the deck's cards
(optionally restricted to memorized-only or unmemorized-only), ordered by
the study priority and truncated to `limit`. -/
def getStudyCards (db : DB) (userId deckId : Nat) (limit : Nat)
    (memorizedOnly unmemorizedOnly : Bool) : Except String (List Card) :=
  match deckFindFirst db deckId userId with
  | none => Except.error "Deck not found"
  | some _ =>
    let base := db.cards.filter (fun c => c.deckId == deckId)
    let filtered :=
      if memorizedOnly then base.filter (fun c => c.memorized)
      else if unmemorizedOnly then base.filter (fun c => !c.memorized)
      else base
    Except.ok ((List.insertionSort (fun c d => studyLE c d = true) filtered).take limit)

/-! ## DeckService (src/services/deckService.js) -/

/-- The derived statistics block attached by several `DeckService`
methods. -/
structure DeckStatsLite where
  totalCards : Nat
  memorizedCards : Nat
  unmemorizedCards : Nat
deriving DecidableEq, Repr

/-- The deck detail returned by `DeckService.getDeckById`. -/
structure DeckDetail where
  deck : Deck
  cards : List Card
  stats : DeckStatsLite
deriving DecidableEq, Repr

/-- Ordering `orderBy: {createdAt: 'desc'}` on a deck's included cards. -/
def createdDesc (c d : Card) : Bool :=
  decide (d.createdAt ≤ c.createdAt)

/-- `DeckService.getDeckById(deckId, userId)`. -/
def getDeckById (db : DB) (deckId userId : Nat) : Except String DeckDetail :=
  match deckFindFirst db deckId userId with
  | none => Except.error "Deck not found"
  | some deck =>
    let cs := db.cards.filter (fun c => c.deckId == deckId)
    Except.ok
      { deck := deck,
        cards := List.insertionSort (fun c d => createdDesc c d = true) cs,
        stats :=
          { totalCards := cs.length,
            memorizedCards := (cs.filter (fun c => c.memorized)).length,
            unmemorizedCards := (cs.filter (fun c => !c.memorized)).length } }

/-- The `data` clause of `prisma.deck.update` in `DeckService.updateDeck`:
`...(name && {name: name.trim()})` and
`...(description !== undefined && {description: description?.trim() || null})`.
`name = none` / `description = none` model an absent (`undefined`) field;
`description = some none` models an explicit `null`. -/
def applyDeckUpdate (name : Option String) (description : Option (Option String))
    (d : Deck) : Deck :=
  let d1 :=
    match name with
    | some n => if n == "" then d else { d with name := jsTrim n }
    | none => d
  match description with
  | some dv =>
    { d1 with description :=
        match dv with
        | some s => if jsTrim s == "" then none else some (jsTrim s)
        | none => none }
  | none => d1

/-- `DeckService.updateDeck(deckId, userId, updateData)`: returns the new
state, the updated deck and its statistics block. -/
def updateDeck (db : DB) (deckId userId : Nat) (name : Option String)
    (description : Option (Option String)) : Except String (DB × Deck × DeckStatsLite) :=
  match deckFindFirst db deckId userId with
  | none => Except.error "Deck not found"
  | some existingDeck =>
    let updated := applyDeckUpdate name description existingDeck
    let db1 : DB := { db with decks := db.decks.map (fun d =>
        if d.id == deckId then applyDeckUpdate name description d else d) }
    let cs := db.cards.filter (fun c => c.deckId == deckId)
    Except.ok (db1, updated,
      { totalCards := cs.length,
        memorizedCards := (cs.filter (fun c => c.memorized)).length,
        unmemorizedCards := (cs.filter (fun c => !c.memorized)).length })

/-- `DeckService.deleteDeck(deckId, userId)`: deletes the deck; its cards
go with it by the schema's cascade delete. -/
def deleteDeck (db : DB) (deckId userId : Nat) : Except String DB :=
  match deckFindFirst db deckId userId with
  | none => Except.error "Deck not found"
  | some _ =>
    Except.ok { db with
      decks := db.decks.filter (fun d => d.id != deckId),
      cards := db.cards.filter (fun c => c.deckId != deckId) }

/-- The statistics object returned by `DeckService.getDeckStats`. -/
structure DeckStatsBundle where
  deckId : Nat
  deckName : String
  totalCards : Nat
  memorizedCards : Nat
  unmemorizedCards : Nat
  progressPercentage : Nat
  recentCards : Nat
  createdAt : Int
  updatedAt : Int
deriving DecidableEq, Repr

/-- `Math.round((m / t) * 100)` for natural `m` and positive natural `t`,
in exact arithmetic: `⌊(100·m)/t + 1/2⌋ = ⌊(200·m + t) / (2·t)⌋`. -/
def jsRoundRatioPct (m t : Nat) : Nat :=
  (200 * m + t) / (2 * t)

/-- `DeckService.getDeckStats(deckId, userId)`; `now` is the clock reading
used to compute `sevenDaysAgo` (7 × 86 400 000 ms earlier). -/
def getDeckStats (db : DB) (deckId userId : Nat) (now : Int) :
    Except String DeckStatsBundle :=
  match deckFindFirst db deckId userId with
  | none => Except.error "Deck not found"
  | some deck =>
    let cs := db.cards.filter (fun c => c.deckId == deckId)
    let totalCards := cs.length
    let memorizedCards := (cs.filter (fun c => c.memorized)).length
    let sevenDaysAgo := now - 7 * 86400000
    Except.ok
      { deckId := deck.id, deckName := deck.name,
        totalCards := totalCards, memorizedCards := memorizedCards,
        unmemorizedCards := totalCards - memorizedCards,
        progressPercentage :=
          if 0 < totalCards then jsRoundRatioPct memorizedCards totalCards else 0,
        recentCards := (cs.filter (fun c => decide (sevenDaysAgo ≤ c.createdAt))).length,
        createdAt := deck.createdAt, updatedAt := deck.updatedAt }

/-! ## AuthService (src/services/authService.js)

Result user objects are modelled as JavaScript objects: association lists
of field name to value, so that the presence or absence of a `password`
key is directly expressible.  `bcrypt.hash` and `bcrypt.compare` are
opaque parameters, and `generateToken({userId})` is modelled as the
embedded user id. -/

/-- A JavaScript field value in a returned user object. -/
inductive FieldValue where
  | natV (n : Nat)
  | strV (s : String)
  | optStrV (s : Option String)
  | intV (i : Int)
deriving DecidableEq, Repr

/-- The full `User` row as an object (what `findUnique` with no `select`
returns): includes the `password` hash. -/
def userToRows (u : UserRow) : List (String × FieldValue) :=
  [("id", FieldValue.natV u.id), ("email", FieldValue.strV u.email),
   ("password", FieldValue.strV u.password), ("name", FieldValue.optStrV u.name),
   ("createdAt", FieldValue.intV u.createdAt), ("updatedAt", FieldValue.intV u.updatedAt)]

/-- The projection `select: {id, email, name, createdAt, updatedAt}` used
by `register` and `updateProfile`. -/
def selectUserPublic (u : UserRow) : List (String × FieldValue) :=
  [("id", FieldValue.natV u.id), ("email", FieldValue.strV u.email),
   ("name", FieldValue.optStrV u.name),
   ("createdAt", FieldValue.intV u.createdAt), ("updatedAt", FieldValue.intV u.updatedAt)]

/-- `{user, token}` as returned by `register` and `login`. -/
structure AuthResult where
  user : List (String × FieldValue)
  token : Nat
deriving DecidableEq, Repr

/-- `AuthService.register(userData)`.  `hashPw` models `bcrypt.hash`,
`newId` the id assigned to the inserted row, `now` the insertion time. -/
def register (hashPw : String → String) (db : DB) (email password : String)
    (name : Option String) (newId : Nat) (now : Int) : Except String (DB × AuthResult) :=
  if email == "" || password == "" then
    Except.error "Email and password are required"
  else
    match db.users.find? (fun u => u.email == jsToLower email) with
    | some _ => Except.error "User already exists with this email"
    | none =>
      let newUser : UserRow :=
        { id := newId, email := jsToLower email, password := hashPw password,
          name := match name with
                  | some n => if n == "" then none else some n
                  | none => none,
          createdAt := now, updatedAt := now }
      Except.ok ({ db with users := db.users ++ [newUser] },
        { user := selectUserPublic newUser, token := newId })

/-- `AuthService.login(loginData)`.  `compareHash` models
`bcrypt.compare(password, storedHash)`. -/
def login (compareHash : String → String → Bool) (db : DB) (email password : String) :
    Except String AuthResult :=
  if email == "" || password == "" then
    Except.error "Email and password are required"
  else
    match db.users.find? (fun u => u.email == jsToLower email) with
    | none => Except.error "Invalid email or password"
    | some user =>
      if compareHash password user.password then
        Except.ok
          { user := (userToRows user).filter (fun kv => kv.1 != "password"),
            token := user.id }
      else
        Except.error "Invalid email or password"

/-- The `updateFields` written by `AuthService.updateProfile`:
`name !== undefined` sets `name` (possibly to `null`);
`email !== undefined` sets the lowercased `email`. -/
def applyProfileUpdate (name : Option (Option String)) (email : Option String)
    (u : UserRow) : UserRow :=
  let u1 :=
    match name with
    | some nv => { u with name := nv }
    | none => u
  match email with
  | some e => { u1 with email := jsToLower e }
  | none => u1

/-- `AuthService.updateProfile(userId, updateData)`: optional duplicate-
email check, then `prisma.user.update` with the public `select`.  A
missing target row makes `prisma.user.update` throw (modelled as
`"Record to update not found"`). -/
def updateProfile (db : DB) (userId : Nat) (name : Option (Option String))
    (email : Option String) : Except String (DB × List (String × FieldValue)) :=
  let dupe : Bool :=
    match email with
    | some e =>
      match db.users.find? (fun (u : UserRow) => u.email == jsToLower e) with
      | some existingUser => existingUser.id != userId
      | none => false
    | none => false
  if dupe then
    Except.error "Email already exists"
  else
    match db.users.find? (fun (u : UserRow) => u.id == userId) with
    | none => Except.error "Record to update not found"
    | some u =>
      Except.ok
        ({ db with users := db.users.map (fun (v : UserRow) =>
            if v.id == userId then applyProfileUpdate name email v else v) },
         selectUserPublic (applyProfileUpdate name email u))

/-! ## Concrete states and inputs used to instantiate the theorems -/

/-- A non-transient error (a constraint violation): no `P1001` code, no
connection-related message. -/
def wNontransientErr : JsError := { code := none, message := "Unique constraint failed" }

/-- A transient connection error carrying Prisma code `P1001`. -/
def wTransientErr : JsError := { code := some "P1001", message := "down" }

/-- An operation failing non-transiently on every execution. -/
def wNontransientOutcome : Nat → Except JsError Unit := fun _ => Except.error wNontransientErr

/-- An operation failing with a transient connection error on every
execution. -/
def wTransientOutcome : Nat → Except JsError Unit := fun _ => Except.error wTransientErr

/-- An operation failing transiently on executions 1 and 2, then
non-transiently. -/
def wMixedOutcome : Nat → Except JsError Unit := fun k =>
  if k < 3 then Except.error wTransientErr else Except.error wNontransientErr

/-- A deck row of user 7. -/
def wDeckA : Deck :=
  { id := 1, name := "d", description := none, userId := 7, cardCount := 0,
    createdAt := 0, updatedAt := 0 }

/-- State with one empty deck of user 7. -/
def wDB1 : DB := { users := [], decks := [wDeckA], cards := [] }

/-- The row `createCard` inserts into `wDB1`. -/
def wCardNew : Card :=
  { id := 10, frontText := "hi", backText := "ho", memorized := false, deckId := 1,
    createdAt := 0, updatedAt := 0 }

/-- `wDB1` after that `createCard`. -/
def wDB1' : DB :=
  { users := [], decks := [{ wDeckA with cardCount := 1 }], cards := [wCardNew] }

/-- A card of deck 1 about to be deleted. -/
def wCardDel : Card :=
  { id := 2, frontText := "f", backText := "b", memorized := false, deckId := 1,
    createdAt := 0, updatedAt := 0 }

/-- State of user 7 holding one deck with one card. -/
def wDB2 : DB :=
  { users := [], decks := [{ wDeckA with cardCount := 1 }], cards := [wCardDel] }

/-- `wDB2` after `deleteCard` of card 2. -/
def wDB2' : DB :=
  { users := [], decks := [{ wDeckA with cardCount := 0 }], cards := [] }

/-- A deck owned by user 5, to be probed by user 7. -/
def wForeignDeck : Deck :=
  { id := 3, name := "x", description := none, userId := 5, cardCount := 0,
    createdAt := 0, updatedAt := 0 }

/-- State containing only the foreign deck. -/
def wDB3 : DB := { users := [], decks := [wForeignDeck], cards := [] }

/-- A deck whose cached `cardCount` (99) is stale on purpose. -/
def wStatsDeck : Deck :=
  { id := 1, name := "d", description := none, userId := 7, cardCount := 99,
    createdAt := 0, updatedAt := 0 }

/-- State with 4 live cards in deck 1, exactly one memorized, under the
stale cache. -/
def wStatsDB : DB :=
  { users := [], decks := [wStatsDeck],
    cards :=
      [{ id := 21, frontText := "a", backText := "b", memorized := true, deckId := 1,
         createdAt := 0, updatedAt := 0 },
       { id := 22, frontText := "a", backText := "b", memorized := false, deckId := 1,
         createdAt := 0, updatedAt := 0 },
       { id := 23, frontText := "a", backText := "b", memorized := false, deckId := 1,
         createdAt := 0, updatedAt := 0 },
       { id := 24, frontText := "a", backText := "b", memorized := false, deckId := 1,
         createdAt := 0, updatedAt := 0 }] }

/-- The statistics `getDeckStats` yields on `wStatsDB`. -/
def wStatsBundle : DeckStatsBundle :=
  { deckId := 1, deckName := "d", totalCards := 4, memorizedCards := 1,
    unmemorizedCards := 3, progressPercentage := 25, recentCards := 4,
    createdAt := 0, updatedAt := 0 }

/-- Study example: the memorized, least-recently-updated card. -/
def wCardA : Card :=
  { id := 31, frontText := "a", backText := "a", memorized := true, deckId := 1,
    createdAt := 0, updatedAt := 5 }

/-- Study example: an unmemorized card, updated earlier. -/
def wCardB : Card :=
  { id := 32, frontText := "b", backText := "b", memorized := false, deckId := 1,
    createdAt := 0, updatedAt := 10 }

/-- Study example: an unmemorized card, updated later. -/
def wCardC : Card :=
  { id := 33, frontText := "c", backText := "c", memorized := false, deckId := 1,
    createdAt := 0, updatedAt := 20 }

/-- State for the study-ordering example. -/
def wStudyDB : DB := { users := [], decks := [wDeckA], cards := [wCardA, wCardB, wCardC] }

/-- An unmemorized card of deck 1 to be toggled. -/
def wTogCard : Card :=
  { id := 41, frontText := "f", backText := "b", memorized := false, deckId := 1,
    createdAt := 0, updatedAt := 0 }

/-- State for the toggle example. -/
def wTogDB : DB := { users := [], decks := [wDeckA], cards := [wTogCard] }

/-- A second deck of user 7 for the bulk-update example. -/
def wBulkDeck2 : Deck :=
  { id := 2, name := "e", description := none, userId := 7, cardCount := 0,
    createdAt := 0, updatedAt := 0 }

/-- A card inside the target deck 1. -/
def wBulkCard1 : Card :=
  { id := 51, frontText := "f", backText := "b", memorized := false, deckId := 1,
    createdAt := 0, updatedAt := 0 }

/-- A card of the other deck 2 whose id also appears in the id list. -/
def wBulkCard2 : Card :=
  { id := 52, frontText := "f", backText := "b", memorized := false, deckId := 2,
    createdAt := 0, updatedAt := 0 }

/-- State for the bulk-update example. -/
def wBulkDB : DB :=
  { users := [], decks := [wDeckA, wBulkDeck2], cards := [wBulkCard1, wBulkCard2] }

/-- `wBulkDB` after bulk-memorizing `[51, 52]` scoped to deck 1: only card
51 changes. -/
def wBulkDB' : DB :=
  { users := [], decks := [wDeckA, wBulkDeck2],
    cards := [{ wBulkCard1 with memorized := true }, wBulkCard2] }

/-- A registered user row. -/
def wAuthUser : UserRow :=
  { id := 9, email := "a@b.c", password := "h", name := none, createdAt := 0, updatedAt := 0 }

/-- State with one user. -/
def wAuthDB : DB := { users := [wAuthUser], decks := [], cards := [] }

/-- A `bcrypt.compare` model that never matches. -/
def cmpNever : String → String → Bool := fun _ _ => false

/-- State with no users. -/
def wEmptyDB : DB := { users := [], decks := [], cards := [] }

/-- A trivial `bcrypt.hash` model. -/
def idHash : String → String := fun s => s

/-- The user row `register` inserts into `wEmptyDB`. -/
def wRegUser : UserRow :=
  { id := 5, email := "a@b.c", password := "pw", name := none, createdAt := 0, updatedAt := 0 }

/-- `wEmptyDB` after that registration. -/
def wRegDB' : DB := { users := [wRegUser], decks := [], cards := [] }

/-- The `{user, token}` object that registration returns. -/
def wRegRes : AuthResult := { user := selectUserPublic wRegUser, token := 5 }

/-- The live memorized-card count of a deck. -/
def memorizedCount (db : DB) (deckId : Nat) : Nat :=
  ((db.cards.filter (fun c => c.deckId == deckId)).filter (fun c => c.memorized)).length

/-- The live count of a deck's cards created within the last 7 days. -/
def recentCount (db : DB) (deckId : Nat) (now : Int) : Nat :=
  ((db.cards.filter (fun c => c.deckId == deckId)).filter
    (fun c => decide (now - 7 * 86400000 ≤ c.createdAt))).length

/-! ## General list lemmas -/

/-- `find?` commutes with a `map` whose function does not change the
predicate's verdict on any element. -/
theorem find?_map_of_pred_invariant {α : Type} (f : α → α) (p : α → Bool) (l : List α)
    (hp : ∀ x, p (f x) = p x) :
    (l.map f).find? p = (l.find? p).map f := by
  induction l with
  | nil => rfl
  | cons a t ih =>
    simp only [List.map_cons, List.find?, hp a]
    cases hpa : p a <;> simp_all

/-! ## Gateway lemmas -/

/-- The retry loop performs at most `fuel` executions of the operation. -/
theorem withRetryGo_count_le {α : Type} (delayOf : Nat → Nat)
    (outcome : Nat → Except JsError α) (maxRetries : Nat) :
    ∀ fuel attempt, (withRetryGo delayOf outcome maxRetries attempt fuel).2.1 ≤ fuel := by
  intro fuel
  induction fuel with
  | zero => intro attempt; simp [withRetryGo]
  | succ n ih =>
    intro attempt
    simp only [withRetryGo]
    split
    · split
      · simp
      · split
        · have h := ih (attempt + 1)
          simp only []
          omega
        · simp
    · simp

/-- If executions `attempt, …, a-1` fail transiently and execution `a`
fails non-transiently (with `a` within the retry budget), the loop started
at `attempt` performs exactly the executions up to `a`, waits
`delayOf attempt, …, delayOf (a-1)` in between, and propagates the error
of execution `a`. -/
theorem withRetryGo_stops_at {α : Type} (delayOf : Nat → Nat)
    (outcome : Nat → Except JsError α) (maxRetries a : Nat) (e : JsError)
    (hmax : a ≤ maxRetries) (herr : outcome a = Except.error e)
    (hnc : isConnectionError e = false) :
    ∀ fuel attempt, attempt ≤ a → a - attempt < fuel →
      (∀ k, attempt ≤ k → k < a →
        ∃ ek, outcome k = Except.error ek ∧ isConnectionError ek = true) →
      withRetryGo delayOf outcome maxRetries attempt fuel =
        (some (Except.error e), a - attempt + 1, (List.range' attempt (a - attempt)).map delayOf) := by
  intro fuel
  induction fuel with
  | zero => intro attempt h1 h2 _; omega
  | succ n ih =>
    intro attempt hle hfuel hall
    rcases Nat.eq_or_lt_of_le hle with heq | hlt
    · subst heq
      have hsub : attempt - attempt = 0 := by omega
      simp [withRetryGo, hmax, herr, hnc, hsub]
    · obtain ⟨ek, hek, hcek⟩ := hall attempt le_rfl hlt
      have hamax : attempt ≤ maxRetries := by omega
      have hlt' : attempt < maxRetries := by omega
      have hrec := ih (attempt + 1) hlt (by omega)
        (fun k hk1 hk2 => hall k (by omega) hk2)
      have hcount : a - attempt = (a - (attempt + 1)) + 1 := by omega
      have hcond : (isConnectionError ek && decide (attempt < maxRetries)) = true := by
        simp [hcek, hlt']
      simp only [withRetryGo, hek]
      rw [if_pos hamax, if_pos hcond]
      simp only [hrec]
      rw [hcount, List.range'_succ, List.map_cons]

/-- C3: `withRetry(operation, maxRetries)` executes `operation` at most
`maxRetries` times in total, and whenever an execution raises an error
that is not a transient connection error (no `P1001` code and no
connection-terminated/closed/cannot-reach message), that error is
propagated right after that execution with no further retry: if the
non-transient failure happens at execution `a` (all earlier executions
having failed transiently), the run stops with exactly `a` executions and
returns that very error. -/
theorem withRetry_bounded_and_propagates_nontransient {α : Type}
    (outcome : Nat → Except JsError α) (maxRetries : Nat) (_hmr : 1 ≤ maxRetries) :
    (withRetry outcome maxRetries).2.1 ≤ maxRetries ∧
    (∀ a e, 1 ≤ a → a ≤ maxRetries →
      (∀ k, 1 ≤ k → k < a →
        ∃ ek, outcome k = Except.error ek ∧ isConnectionError ek = true) →
      outcome a = Except.error e → isConnectionError e = false →
      withRetry outcome maxRetries =
        (some (Except.error e), a, (List.range' 1 (a - 1)).map dbRetryDelay)) := by
  constructor
  · exact withRetryGo_count_le dbRetryDelay outcome maxRetries maxRetries 1
  · intro a e ha hamax hall herr hnc
    have h := withRetryGo_stops_at dbRetryDelay outcome maxRetries a e hamax herr hnc
      maxRetries 1 ha (by omega) hall
    unfold withRetry
    rw [h]
    have h1 : a - 1 + 1 = a := by omega
    rw [h1]

/-- Witness for C3: a run of two executions at most, whose first execution
fails with a non-transient error, stops after that one execution. -/
theorem withRetry_bounded_and_propagates_nontransient_witness :
    (withRetry wNontransientOutcome 2).2.1 ≤ 2 ∧
    withRetry wNontransientOutcome 2 = (some (Except.error wNontransientErr), 1, []) := by
  have h := withRetry_bounded_and_propagates_nontransient wNontransientOutcome 2 (by decide)
  refine ⟨h.1, ?_⟩
  have h2 := h.2 1 wNontransientErr (by decide) (by decide)
    (fun k hk1 hk2 => absurd (Nat.lt_of_le_of_lt hk1 hk2) (by omega)) rfl (by decide)
  simpa using h2

/-- C4, counterexample: in `src/config/database.js` the pause between
consecutive executions after a transient connection error is a fixed
1000 ms (`setTimeout(resolve, 1000)`): with three transient failures the
recorded waits are `[1000, 1000]`, and the second wait is not the double
of the first — the delay does not grow exponentially. -/
theorem withRetry_delay_not_doubling :
    (withRetry wTransientOutcome 3).2.2 = [dbRetryDelay 1, dbRetryDelay 2] ∧
    (withRetry wTransientOutcome 3).2.2 = [1000, 1000] ∧
    ¬ dbRetryDelay 2 = 2 * dbRetryDelay 1 := by
  refine ⟨by decide, by decide, by decide⟩

/-- C4, amended: in the `part_003`/`part_004` revisions of
`config/database.js`, the wait after failed attempt `i` is
`min(1000 · 2^(i-1), 5000)`: a 1000 ms base delay that doubles with each
subsequent attempt, capped at 5000 ms.  A run whose executions
`1, …, a-1` fail transiently and whose execution `a` fails
non-transiently records exactly those waits; the
`src/config/database.js` revision instead waits a fixed 1000 ms. -/
theorem withRetryPart003_backoff_doubles_capped {α : Type}
    (outcome : Nat → Except JsError α) (maxRetries a : Nat) (e : JsError)
    (ha : 1 ≤ a) (hamax : a ≤ maxRetries)
    (hall : ∀ k, 1 ≤ k → k < a →
      ∃ ek, outcome k = Except.error ek ∧ isConnectionError ek = true)
    (herr : outcome a = Except.error e) (hnc : isConnectionError e = false) :
    (withRetryPart003 outcome maxRetries).2.2 = (List.range' 1 (a - 1)).map p3RetryDelay ∧
    p3RetryDelay 1 = 1000 ∧
    (∀ i, p3RetryDelay i ≤ 5000) ∧
    (∀ i, 1 ≤ i → p3RetryDelay i < 5000 →
      p3RetryDelay (i + 1) = min (2 * p3RetryDelay i) 5000) ∧
    (∀ i, 1 ≤ i → 5000 ≤ 1000 * 2 ^ (i - 1) → p3RetryDelay i = 5000) ∧
    (∀ i, dbRetryDelay i = 1000) := by
  refine ⟨?_, by decide, ?_, ?_, ?_, fun i => rfl⟩
  · have h := withRetryGo_stops_at p3RetryDelay outcome maxRetries a e hamax herr hnc
      maxRetries 1 ha (by omega) hall
    unfold withRetryPart003
    rw [h]
  · intro i
    exact Nat.min_le_right _ _
  · intro i hi hlt
    have hleft : p3RetryDelay i = 1000 * 2 ^ (i - 1) := by
      unfold p3RetryDelay at hlt ⊢
      omega
    have h2 : 2 ^ i = 2 ^ (i - 1) * 2 := by
      rw [← pow_succ]
      congr 1
      omega
    have hpow : 1000 * 2 ^ i = 2 * (1000 * 2 ^ (i - 1)) := by
      rw [h2]
      ring
    rw [hleft]
    unfold p3RetryDelay
    rw [Nat.add_sub_cancel, hpow]
  · intro i _ hge
    unfold p3RetryDelay
    omega

/-- Witness for C4's amended theorem: two transient failures then a
non-transient one under the exponential-backoff revision record the waits
`[1000, 2000]` — the second wait doubles the first. -/
theorem withRetryPart003_backoff_doubles_capped_witness :
    (withRetryPart003 wMixedOutcome 3).2.2 = [1000, 2000] := by
  have h := withRetryPart003_backoff_doubles_capped wMixedOutcome 3 3 wNontransientErr
    (by decide) (by decide)
    (fun k hk1 hk2 => ⟨wTransientErr, by unfold wMixedOutcome; rw [if_pos hk2], by decide⟩)
    (by rfl) (by decide)
  rw [h.1]
  decide

/-! ## CardService lemmas -/

/-- Recomputing a deck's cached count does not change the card table. -/
theorem countCards_updateDeckCardCount (db : DB) (deckId targetId : Nat) :
    countCards (updateDeckCardCount db targetId) deckId = countCards db deckId := rfl

/-- After `updateDeckCardCount db deckId`, every deck row carrying that id
stores the full recomputed count. -/
theorem cardCount_of_updateDeckCardCount (db : DB) (deckId : Nat) :
    ∀ d ∈ (updateDeckCardCount db deckId).decks, d.id = deckId →
      d.cardCount = countCards db deckId := by
  intro d hd hid
  simp only [updateDeckCardCount, List.mem_map] at hd
  obtain ⟨d0, _, heq⟩ := hd
  by_cases hc : d0.id = deckId
  · rw [if_pos (by simpa using hc)] at heq
    rw [← heq]
  · rw [if_neg (by simpa using hc)] at heq
    rw [← heq] at hid
    exact absurd hid hc

/-- C1: after a successful `createCard` targeting deck `deckId`, and after
a successful `deleteCard` of a card of deck `c.deckId`, the stored
`Deck.cardCount` of the targeted deck equals the number of `Card` rows
whose `deckId` matches, recomputed as a full count over the resulting
state. -/
theorem cardCount_recomputed_after_create_delete
    (db : DB) (userId deckId cardId newId : Nat)
    (frontText backText : String) (memorized : Bool) (now : Int) :
    (∀ db' card,
      createCard db userId deckId frontText backText memorized newId now =
        Except.ok (db', card) →
      ∀ d ∈ db'.decks, d.id = deckId → d.cardCount = countCards db' deckId) ∧
    (∀ db' c, cardFindFirstOwned db cardId userId = some c →
      deleteCard db cardId userId = Except.ok db' →
      ∀ d ∈ db'.decks, d.id = c.deckId → d.cardCount = countCards db' c.deckId) := by
  constructor
  · intro db' card hok d hd hid
    unfold createCard at hok
    cases hfind : deckFindFirst db deckId userId with
    | none => rw [hfind] at hok; exact absurd hok (by simp)
    | some deck =>
      rw [hfind] at hok
      simp only [Except.ok.injEq, Prod.mk.injEq] at hok
      obtain ⟨h1, -⟩ := hok
      subst h1
      rw [countCards_updateDeckCardCount]
      exact cardCount_of_updateDeckCardCount _ deckId d hd hid
  · intro db' c hfound hok d hd hid
    unfold deleteCard at hok
    rw [hfound] at hok
    simp only [Except.ok.injEq] at hok
    subst hok
    rw [countCards_updateDeckCardCount]
    exact cardCount_of_updateDeckCardCount _ c.deckId d hd hid

/-- Witness for C1: creating a card in an empty deck stores count 1;
deleting the only card of a deck stores count 0. -/
theorem cardCount_recomputed_after_create_delete_witness :
    ({ wDeckA with cardCount := 1 } : Deck).cardCount = countCards wDB1' 1 ∧
    ({ wDeckA with cardCount := 0 } : Deck).cardCount = countCards wDB2' 1 := by
  constructor
  · exact (cardCount_recomputed_after_create_delete wDB1 7 1 0 10 "hi" "ho" false 0).1
      wDB1' wCardNew rfl { wDeckA with cardCount := 1 } (by decide) rfl
  · exact (cardCount_recomputed_after_create_delete wDB2 7 1 2 0 "x" "y" false 0).2
      wDB2' wCardDel rfl rfl { wDeckA with cardCount := 0 } (by decide) rfl

/-! ## DeckService lemmas -/

/-- The ownership-scoped lookup misses a deck owned by someone else
(given unique deck ids). -/
theorem deckFindFirst_none_of_foreign (db : DB) (D : Deck) (userId : Nat)
    (hmem : D ∈ db.decks) (hown : D.userId ≠ userId)
    (hids : (db.decks.map Deck.id).Nodup) :
    deckFindFirst db D.id userId = none := by
  unfold deckFindFirst
  rw [List.find?_eq_none]
  intro d hd
  simp only [Bool.and_eq_true, beq_iff_eq, not_and]
  intro hdid
  have hde : d = D := List.inj_on_of_nodup_map hids hd hmem (by rw [hdid])
  subst hde
  exact hown

/-- The ownership-scoped lookup misses a deck id that is absent from the
deck table. -/
theorem deckFindFirst_removed_none (db : DB) (deckId userId : Nat) :
    deckFindFirst { db with decks := db.decks.filter (fun d => d.id != deckId) }
      deckId userId = none := by
  unfold deckFindFirst
  rw [List.find?_eq_none]
  intro d hd
  have hne : (d.id != deckId) = true := (List.mem_filter.mp hd).2
  rw [bne_iff_ne] at hne
  intro hp
  rw [Bool.and_eq_true] at hp
  exact hne (beq_iff_eq.mp hp.1)

/-- C2: a `getDeckById`, `updateDeck` or `deleteDeck` call by user
`userId` naming a deck `D` of another user fails with the `"Deck not
found"` condition, and the observable result is identical to what the
same call returns when no deck with that id exists at all. -/
theorem deck_ops_hide_foreign_decks (db : DB) (D : Deck) (userId : Nat)
    (hmem : D ∈ db.decks) (hown : D.userId ≠ userId)
    (hids : (db.decks.map Deck.id).Nodup) :
    getDeckById db D.id userId = Except.error "Deck not found" ∧
    (∀ name description, updateDeck db D.id userId name description =
      Except.error "Deck not found") ∧
    deleteDeck db D.id userId = Except.error "Deck not found" ∧
    getDeckById { db with decks := db.decks.filter (fun d => d.id != D.id) } D.id userId =
      getDeckById db D.id userId ∧
    (∀ name description,
      updateDeck { db with decks := db.decks.filter (fun d => d.id != D.id) } D.id userId
          name description =
        updateDeck db D.id userId name description) ∧
    deleteDeck { db with decks := db.decks.filter (fun d => d.id != D.id) } D.id userId =
      deleteDeck db D.id userId := by
  have h1 := deckFindFirst_none_of_foreign db D userId hmem hown hids
  have h2 := deckFindFirst_removed_none db D.id userId
  refine ⟨?_, ?_, ?_, ?_, ?_, ?_⟩
  · simp [getDeckById, h1]
  · intro name description
    simp [updateDeck, h1]
  · simp [deleteDeck, h1]
  · simp [getDeckById, h1, h2]
  · intro name description
    simp [updateDeck, h1, h2]
  · simp [deleteDeck, h1, h2]

/-- Witness for C2: user 7 probing deck 3 of user 5 gets the same
NotFound condition as for a nonexistent deck. -/
theorem deck_ops_hide_foreign_decks_witness :
    getDeckById wDB3 3 7 = Except.error "Deck not found" :=
  (deck_ops_hide_foreign_decks wDB3 wForeignDeck 7 (by decide) (by decide) (by decide)).1

/-- C5: for a deck the requesting user owns, `getDeckStats` returns
statistics computed from the live card set: `totalCards` is the full live
count (not the cached `Deck.cardCount`, which is free in the hypotheses
and explicitly irrelevant by the last conjunct), `progressPercentage` is
`round(memorized/total·100)` (`⌊(200·m + t)/(2·t)⌋`) when `totalCards > 0`
and exactly `0` when `totalCards = 0`. -/
theorem getDeckStats_progress_from_live_cards
    (db : DB) (deckId userId : Nat) (now : Int) (deck : Deck)
    (hfound : deckFindFirst db deckId userId = some deck) :
    getDeckStats db deckId userId now = Except.ok
      { deckId := deck.id, deckName := deck.name,
        totalCards := countCards db deckId,
        memorizedCards := memorizedCount db deckId,
        unmemorizedCards := countCards db deckId - memorizedCount db deckId,
        progressPercentage :=
          if 0 < countCards db deckId then
            (200 * memorizedCount db deckId + countCards db deckId) /
              (2 * countCards db deckId)
          else 0,
        recentCards := recentCount db deckId now,
        createdAt := deck.createdAt, updatedAt := deck.updatedAt } ∧
    (∀ k, getDeckStats
        { db with decks := db.decks.map (fun d =>
            if d.id == deckId then { d with cardCount := k } else d) }
        deckId userId now =
      getDeckStats db deckId userId now) := by
  constructor
  · simp only [getDeckStats, hfound]
    rfl
  · intro k
    have hfound' : db.decks.find? (fun d => d.id == deckId && d.userId == userId) =
        some deck := hfound
    have hpd := List.find?_some hfound'
    simp only [Bool.and_eq_true, beq_iff_eq] at hpd
    have hfind2 : deckFindFirst
        { db with decks := db.decks.map (fun d =>
            if d.id == deckId then { d with cardCount := k } else d) }
        deckId userId = some { deck with cardCount := k } := by
      show (db.decks.map (fun d =>
          if d.id == deckId then { d with cardCount := k } else d)).find?
          (fun d => d.id == deckId && d.userId == userId) = _
      rw [find?_map_of_pred_invariant _ _ _ (fun d => by
        cases hdd : (d.id == deckId) <;> simp [hdd])]
      rw [hfound']
      simp [Option.map, hpd.1]
    simp only [getDeckStats, hfind2, hfound]

/-- Witness for C5: a deck with 4 live cards, of which 1 is memorized,
under a deliberately stale cached `cardCount = 99`, reports
`totalCards = 4` and `progressPercentage = 25`. -/
theorem getDeckStats_progress_from_live_cards_witness :
    deckFindFirst wStatsDB 1 7 = some wStatsDeck ∧
    getDeckStats wStatsDB 1 7 0 = Except.ok wStatsBundle ∧
    wStatsBundle.progressPercentage = 25 ∧ wStatsDeck.cardCount = 99 ∧
    countCards wStatsDB 1 = 4 ∧ memorizedCount wStatsDB 1 = 1 := by
  refine ⟨rfl, ?_, rfl, rfl, rfl, rfl⟩
  have h := (getDeckStats_progress_from_live_cards wStatsDB 1 7 0 wStatsDeck rfl).1
  rw [h]
  rfl

/-- The study ordering is total. -/
theorem studyLE_total : ∀ c d : Card, studyLE c d = true ∨ studyLE d c = true := by
  intro c d
  unfold studyLE
  cases hc : c.memorized <;> cases hd : d.memorized <;>
    simp [hc, hd, Int.le_total c.updatedAt d.updatedAt]

/-- The study ordering is transitive. -/
theorem studyLE_trans : ∀ a b c : Card,
    studyLE a b = true → studyLE b c = true → studyLE a c = true := by
  intro a b c hab hbc
  unfold studyLE at hab hbc ⊢
  cases ha : a.memorized <;> cases hb : b.memorized <;> cases hc : c.memorized <;>
    simp_all <;> omega

instance : IsTotal Card (fun c d => studyLE c d = true) := ⟨studyLE_total⟩

instance : IsTrans Card (fun c d => studyLE c d = true) := ⟨studyLE_trans⟩

/-- A `studyLE`-ordered pair places unmemorized before memorized and
breaks ties by ascending `updatedAt`. -/
theorem studyLE_imp (c d : Card) (h : studyLE c d = true) :
    (c.memorized = true → d.memorized = true) ∧
    (c.memorized = d.memorized → c.updatedAt ≤ d.updatedAt) := by
  unfold studyLE at h
  cases hc : c.memorized <;> cases hd : d.memorized <;> simp_all

/-- C6: for a deck owned by the requesting user, `getStudyCards` returns
the deck's cards ordered with every unmemorized card before every
memorized one, ties broken by ascending `updatedAt`, truncated to
`limit`; and on the concrete deck
`[A (memorized, older), B (unmemorized, older), C (unmemorized, newer)]`
the returned order is `[B, C, A]`. -/
theorem getStudyCards_priority_order :
    (∀ (db : DB) (userId deckId limit : Nat) (r : List Card),
      getStudyCards db userId deckId limit false false = Except.ok r →
      r.Pairwise (fun c d =>
        (c.memorized = true → d.memorized = true) ∧
        (c.memorized = d.memorized → c.updatedAt ≤ d.updatedAt)) ∧
      r = (List.insertionSort (fun c d => studyLE c d = true)
            (db.cards.filter (fun c => c.deckId == deckId))).take limit) ∧
    getStudyCards wStudyDB 7 1 20 false false = Except.ok [wCardB, wCardC, wCardA] := by
  constructor
  · intro db userId deckId limit r hok
    unfold getStudyCards at hok
    cases hfind : deckFindFirst db deckId userId with
    | none => rw [hfind] at hok; exact absurd hok (by simp)
    | some deck =>
      rw [hfind] at hok
      simp only [Bool.if_false_left, Except.ok.injEq] at hok
      have hr : r = (List.insertionSort (fun c d => studyLE c d = true)
          (db.cards.filter (fun c => c.deckId == deckId))).take limit := by
        rw [← hok]
        simp
      refine ⟨?_, hr⟩
      rw [hr]
      have hsorted := List.sorted_insertionSort (fun c d => studyLE c d = true)
        (db.cards.filter (fun c => c.deckId == deckId))
      exact ((hsorted.sublist (List.take_sublist _ _)).imp fun h => studyLE_imp _ _ h)
  · rfl

/-- Witness for C6: the study ordering facts instantiated on the concrete
three-card deck, via the general statement. -/
theorem getStudyCards_priority_order_witness :
    List.Pairwise (fun c d : Card =>
      (c.memorized = true → d.memorized = true) ∧
      (c.memorized = d.memorized → c.updatedAt ≤ d.updatedAt))
      [wCardB, wCardC, wCardA] ∧
    [wCardB, wCardC, wCardA] = (List.insertionSort (fun c d => studyLE c d = true)
      (wStudyDB.cards.filter (fun c => c.deckId == 1))).take 20 :=
  getStudyCards_priority_order.1 wStudyDB 7 1 20 [wCardB, wCardC, wCardA]
    getStudyCards_priority_order.2

/-- C7: for a card owned (through its deck) by the requesting user,
`toggleMemorized` returns the card with `memorized` negated, and applying
`toggleMemorized` again restores the original `memorized` value. -/
theorem toggleMemorized_negates_and_involutive (db : DB) (cardId userId : Nat) (c : Card)
    (hfound : cardFindFirstOwned db cardId userId = some c) :
    toggleMemorized db cardId userId =
      Except.ok (cardUpdateMemorized db cardId (!c.memorized),
        { c with memorized := !c.memorized }) ∧
    toggleMemorized (cardUpdateMemorized db cardId (!c.memorized)) cardId userId =
      Except.ok
        (cardUpdateMemorized (cardUpdateMemorized db cardId (!c.memorized)) cardId
          (!(!c.memorized)),
         { c with memorized := !(!c.memorized) }) ∧
    ({ c with memorized := !c.memorized } : Card).memorized = !c.memorized ∧
    ({ c with memorized := !(!c.memorized) } : Card).memorized = c.memorized := by
  have hfound' : db.cards.find? (fun x =>
      x.id == cardId && db.decks.any (fun d => d.id == x.deckId && d.userId == userId)) =
      some c := hfound
  have hpc := List.find?_some hfound'
  rw [Bool.and_eq_true] at hpc
  have hcid : (c.id == cardId) = true := hpc.1
  have hfound2 : cardFindFirstOwned (cardUpdateMemorized db cardId (!c.memorized))
      cardId userId = some { c with memorized := !c.memorized } := by
    show (db.cards.map (fun x =>
        if x.id == cardId then { x with memorized := !c.memorized } else x)).find?
        (fun x =>
          x.id == cardId && db.decks.any (fun d => d.id == x.deckId && d.userId == userId)) =
        _
    rw [find?_map_of_pred_invariant _ _ _ (fun x => by
      cases hdd : (x.id == cardId) <;> simp [hdd])]
    rw [hfound']
    simp [Option.map, hcid]
  refine ⟨?_, ?_, rfl, by simp⟩
  · unfold toggleMemorized
    rw [hfound]
  · unfold toggleMemorized
    rw [hfound2]

/-- Witness for C7: toggling the unmemorized card 41 twice goes
`false → true → false`. -/
theorem toggleMemorized_negates_and_involutive_witness :
    cardFindFirstOwned wTogDB 41 7 = some wTogCard ∧
    (toggleMemorized wTogDB 41 7 =
      Except.ok (cardUpdateMemorized wTogDB 41 (!wTogCard.memorized),
        { wTogCard with memorized := !wTogCard.memorized }) ∧
     toggleMemorized (cardUpdateMemorized wTogDB 41 (!wTogCard.memorized)) 41 7 =
      Except.ok
        (cardUpdateMemorized (cardUpdateMemorized wTogDB 41 (!wTogCard.memorized)) 41
          (!(!wTogCard.memorized)),
         { wTogCard with memorized := !(!wTogCard.memorized) }) ∧
     ({ wTogCard with memorized := !wTogCard.memorized } : Card).memorized =
       !wTogCard.memorized ∧
     ({ wTogCard with memorized := !(!wTogCard.memorized) } : Card).memorized =
       wTogCard.memorized) :=
  ⟨rfl, toggleMemorized_negates_and_involutive wTogDB 41 7 wTogCard rfl⟩

/-- The `updateMany` row filter holds exactly on cards whose id is listed
and whose `deckId` is the target deck. -/
theorem bulkTarget_eq_decide (cardIds : List Nat) (deckId : Nat) (c : Card) :
    bulkTarget cardIds deckId c = decide (c.id ∈ cardIds ∧ c.deckId = deckId) := by
  unfold bulkTarget
  cases hc : cardIds.contains c.id <;> cases hd : c.deckId == deckId <;>
    simp_all [List.contains]

/-- C8: for a deck owned by the requesting user, `bulkUpdateMemorized`
sets `memorized := b` exactly on the cards whose id is in the list and
whose `deckId` is the target deck, leaves every other card (in
particular any listed id belonging to another deck) unchanged, and
returns `updatedCount` equal to the number of cards so matched. -/
theorem bulkUpdateMemorized_scoped_to_deck (db : DB) (userId deckId : Nat)
    (cardIds : List Nat) (b : Bool) (deck : Deck)
    (hfound : deckFindFirst db deckId userId = some deck) :
    ∃ db', bulkUpdateMemorized db userId deckId cardIds b =
        Except.ok (db', (db.cards.filter (bulkTarget cardIds deckId)).length, b) ∧
      (db.cards.filter (bulkTarget cardIds deckId)).length =
        (db.cards.filter (fun c => decide (c.id ∈ cardIds ∧ c.deckId = deckId))).length ∧
      (∀ (i : Nat) (c : Card), db.cards[i]? = some c → c.id ∈ cardIds → c.deckId = deckId →
        db'.cards[i]? = some { c with memorized := b }) ∧
      (∀ (i : Nat) (c : Card), db.cards[i]? = some c → ¬(c.id ∈ cardIds ∧ c.deckId = deckId) →
        db'.cards[i]? = some c) ∧
      db'.cards.length = db.cards.length ∧ db'.decks = db.decks := by
  refine ⟨{ db with cards := db.cards.map (fun c =>
      if bulkTarget cardIds deckId c then { c with memorized := b } else c) },
    ?_, ?_, ?_, ?_, ?_, rfl⟩
  · unfold bulkUpdateMemorized
    rw [hfound]
  · rw [List.filter_congr (fun c _ => bulkTarget_eq_decide cardIds deckId c)]
  · intro i c hic hmem hdeck
    have ht : bulkTarget cardIds deckId c = true := by
      rw [bulkTarget_eq_decide]
      exact decide_eq_true ⟨hmem, hdeck⟩
    show (db.cards.map (fun c =>
      if bulkTarget cardIds deckId c then { c with memorized := b } else c))[i]? = _
    rw [List.getElem?_map, hic]
    simp [Option.map, ht]
  · intro i c hic hnot
    have hf : bulkTarget cardIds deckId c = false := by
      rw [bulkTarget_eq_decide]
      exact decide_eq_false hnot
    show (db.cards.map (fun c =>
      if bulkTarget cardIds deckId c then { c with memorized := b } else c))[i]? = _
    rw [List.getElem?_map, hic]
    simp [Option.map, hf]
  · show (db.cards.map (fun c =>
      if bulkTarget cardIds deckId c then { c with memorized := b } else c)).length = _
    rw [List.length_map]

/-- Witness for C8: bulk-memorizing ids `[51, 52]` scoped to deck 1, where
card 52 belongs to deck 2, updates only card 51 and reports count 1. -/
theorem bulkUpdateMemorized_scoped_to_deck_witness :
    deckFindFirst wBulkDB 1 7 = some wDeckA ∧
    bulkUpdateMemorized wBulkDB 7 1 [51, 52] true = Except.ok (wBulkDB', 1, true) ∧
    (∃ db', bulkUpdateMemorized wBulkDB 7 1 [51, 52] true =
        Except.ok (db', (wBulkDB.cards.filter (bulkTarget [51, 52] 1)).length, true) ∧
      (wBulkDB.cards.filter (bulkTarget [51, 52] 1)).length =
        (wBulkDB.cards.filter (fun c => decide (c.id ∈ [51, 52] ∧ c.deckId = 1))).length ∧
      (∀ (i : Nat) (c : Card), wBulkDB.cards[i]? = some c → c.id ∈ [51, 52] → c.deckId = 1 →
        db'.cards[i]? = some { c with memorized := true }) ∧
      (∀ (i : Nat) (c : Card), wBulkDB.cards[i]? = some c → ¬(c.id ∈ [51, 52] ∧ c.deckId = 1) →
        db'.cards[i]? = some c) ∧
      db'.cards.length = wBulkDB.cards.length ∧ db'.decks = wBulkDB.decks) :=
  ⟨rfl, rfl, bulkUpdateMemorized_scoped_to_deck wBulkDB 7 1 [51, 52] true wDeckA rfl⟩

/-! ## AuthService lemmas -/

/-- The public `select` projection never yields a `password` key. -/
theorem selectUserPublic_no_password (u : UserRow) :
    "password" ∉ (selectUserPublic u).map Prod.fst := by
  simp [selectUserPublic]

/-- Rest-destructuring the `password` key away never yields a `password`
key. -/
theorem filter_password_no_password (l : List (String × FieldValue)) :
    "password" ∉ (l.filter (fun kv => kv.1 != "password")).map Prod.fst := by
  intro h
  obtain ⟨kv, hkv, hfst⟩ := List.mem_map.mp h
  have hf := (List.mem_filter.mp hkv).2
  rw [bne_iff_ne] at hf
  exact hf hfst

/-- C9: a failed login — whether the email matches no user or the password
does not match the stored hash — raises the identical message
`"Invalid email or password"` in both cases. -/
theorem login_failures_indistinguishable
    (compareHash : String → String → Bool) (db : DB) (email password : String)
    (hemail : email ≠ "") (hpw : password ≠ "") :
    (db.users.find? (fun u => u.email == jsToLower email) = none →
      login compareHash db email password = Except.error "Invalid email or password") ∧
    (∀ u, db.users.find? (fun v => v.email == jsToLower email) = some u →
      compareHash password u.password = false →
      login compareHash db email password = Except.error "Invalid email or password") := by
  have hcond : (email == "" || password == "") = false := by
    simp [hemail, hpw]
  constructor
  · intro hnone
    simp [login, hcond, hnone]
  · intro u hu hcmp
    simp [login, hcond, hu, hcmp]

/-- Witness for C9: under a store holding only `a@b.c`, the unknown email
`x@y.z` and a wrong password for `a@b.c` produce the same error. -/
theorem login_failures_indistinguishable_witness :
    (("x@y.z" : String) ≠ "") ∧ (("pw" : String) ≠ "") ∧
    login cmpNever wAuthDB "x@y.z" "pw" = Except.error "Invalid email or password" ∧
    login cmpNever wAuthDB "a@b.c" "wrong" = Except.error "Invalid email or password" := by
  refine ⟨by decide, by decide, ?_, ?_⟩
  · exact (login_failures_indistinguishable cmpNever wAuthDB "x@y.z" "pw"
      (by decide) (by decide)).1 rfl
  · exact (login_failures_indistinguishable cmpNever wAuthDB "a@b.c" "wrong"
      (by decide) (by decide)).2 wAuthUser rfl rfl

/-- C10: the user object returned by a successful `register`, `login` or
`updateProfile` carries no `password` field: the first two select only
`id, email, name, createdAt, updatedAt`, and `login` strips the
`password` key before returning. -/
theorem auth_results_omit_password
    (hashPw : String → String) (compareHash : String → String → Bool) (db : DB)
    (email password : String) (name : Option String) (nameU : Option (Option String))
    (emailU : Option String) (userId newId : Nat) (now : Int) :
    (∀ db' res, register hashPw db email password name newId now = Except.ok (db', res) →
      "password" ∉ res.user.map Prod.fst) ∧
    (∀ res, login compareHash db email password = Except.ok res →
      "password" ∉ res.user.map Prod.fst) ∧
    (∀ db' rows, updateProfile db userId nameU emailU = Except.ok (db', rows) →
      "password" ∉ rows.map Prod.fst) := by
  refine ⟨?_, ?_, ?_⟩
  · intro db' res hok
    unfold register at hok
    split at hok
    · exact absurd hok (by simp)
    · cases hfind : db.users.find? (fun u => u.email == jsToLower email) with
      | some u => simp only [hfind] at hok; exact absurd hok (by simp)
      | none =>
        simp only [hfind] at hok
        simp only [Except.ok.injEq, Prod.mk.injEq] at hok
        obtain ⟨-, h2⟩ := hok
        rw [← h2]
        exact selectUserPublic_no_password _
  · intro res hok
    unfold login at hok
    split at hok
    · exact absurd hok (by simp)
    · cases hfind : db.users.find? (fun u => u.email == jsToLower email) with
      | none => simp only [hfind] at hok; exact absurd hok (by simp)
      | some u =>
        simp only [hfind] at hok
        split at hok
        · simp only [Except.ok.injEq] at hok
          rw [← hok]
          exact filter_password_no_password _
        · exact absurd hok (by simp)
  · intro db' rows hok
    simp only [updateProfile] at hok
    split at hok
    · exact absurd hok (by simp)
    · cases hfindu : db.users.find? (fun u : UserRow => u.id == userId) with
      | none => simp only [hfindu] at hok; exact absurd hok (by simp)
      | some u =>
        simp only [hfindu] at hok
        simp only [Except.ok.injEq, Prod.mk.injEq] at hok
        obtain ⟨-, h2⟩ := hok
        rw [← h2]
        exact selectUserPublic_no_password _

/-- Witness for C10: a concrete successful registration whose returned
user object has no `password` key. -/
theorem auth_results_omit_password_witness :
    register idHash wEmptyDB "a@b.c" "pw" none 5 0 = Except.ok (wRegDB', wRegRes) ∧
    "password" ∉ wRegRes.user.map Prod.fst := by
  refine ⟨rfl, ?_⟩
  exact (auth_results_omit_password idHash cmpNever wEmptyDB "a@b.c" "pw" none none none
    9 5 0).1 wRegDB' wRegRes rfl

end VocabApp
